import Mathlib

/-
Verification of the donation/campaign reconciliation core of the nonprofit CRM.

The embedding models the persistent store as an explicit record of tables and
translates the handlers of src/unnamed/part_004 (createDonation, updateDonation,
deleteDonation) and src/unnamed/part_007 (updateCampaign, deleteCampaign) into
pure state-passing functions.  Monetary amounts are modelled as exact integers
(minor units of the scale-2 fixed-point values): the numeric(12,2) columns of
src/server/src/db/schema.ts hold exact scale-2 decimals and all SQL arithmetic
on them is exact, so a decimal x.yz is represented as the integer 100*x + yz.  JavaScript truthiness tests on
nullable numeric ids (`if (input.campaignId)`) are modelled explicitly: null
and 0 are falsy.
-/

namespace Crm

inductive DonationStatus
  | Pledged
  | Received
  | Cancelled
  | Refunded
  deriving DecidableEq, Repr

inductive CampaignStatus
  | Active
  | Completed
  | Cancelled
  | Planned
  deriving DecidableEq, Repr

inductive PaymentMethod
  | Cash
  | Check
  | CreditCard
  | BankTransfer
  | Online
  | Other
  deriving DecidableEq, Repr

/-- Row of the donors table (src/server/src/db/schema.ts, donorsTable). -/
structure Donor where
  id : Nat
  tenantId : String
  name : String
  email : Option String
  phone : Option String
  address : Option String
  notes : Option String
  customFields : Option String
  deriving DecidableEq, Repr

/-- Row of the campaigns table (src/server/src/db/schema.ts, campaignsTable).
Amounts are the exact decimal values of the numeric(12,2) columns. -/
structure Campaign where
  id : Nat
  tenantId : String
  name : String
  description : Option String
  startDate : Option Int
  endDate : Option Int
  goalAmount : ℤ
  currentAmountRaised : ℤ
  status : CampaignStatus
  customFields : Option String
  deriving DecidableEq, Repr

/-- Row of the donations table (src/server/src/db/schema.ts, donationsTable). -/
structure Donation where
  id : Nat
  tenantId : String
  donorId : Nat
  campaignId : Option Nat
  amount : ℤ
  date : Int
  status : DonationStatus
  paymentMethod : Option PaymentMethod
  notes : Option String
  customFields : Option String
  deriving DecidableEq, Repr

/-- The persistent store restricted to the tables the reconciliation touches.
`nextDonationId` models the serial primary-key generator of the donations
table. -/
structure DbState where
  donors : List Donor
  campaigns : List Campaign
  donations : List Donation
  nextDonationId : Nat
  deriving DecidableEq, Repr

/-- createDonationInputSchema of src/unnamed/part_004 (lines 585-595). -/
structure CreateDonationInput where
  tenantId : String
  donorId : Nat
  campaignId : Option Nat
  amount : ℤ
  date : Int
  status : DonationStatus
  paymentMethod : Option PaymentMethod
  notes : Option String
  customFields : Option String
  deriving DecidableEq, Repr

/-- updateDonationInputSchema of src/unnamed/part_004 (lines 599-609).
An outer `none` is an absent (undefined) key; for nullable fields the inner
Option is the explicit null. -/
structure UpdateDonationInput where
  id : Nat
  donorId : Option Nat
  campaignId : Option (Option Nat)
  amount : Option ℤ
  date : Option Int
  status : Option DonationStatus
  paymentMethod : Option (Option PaymentMethod)
  notes : Option (Option String)
  customFields : Option (Option String)
  deriving DecidableEq, Repr

/-- updateCampaignInputSchema of src/unnamed/part_004 (lines 550-561).  Note
that it exposes an optional `currentAmountRaised`. -/
structure UpdateCampaignInput where
  id : Nat
  name : Option String
  description : Option (Option String)
  startDate : Option (Option Int)
  endDate : Option (Option Int)
  goalAmount : Option ℤ
  currentAmountRaised : Option ℤ
  status : Option CampaignStatus
  customFields : Option (Option String)
  deriving DecidableEq, Repr

/-- The thrown errors of the handlers: the three `not found or access denied`
validation errors, and a storage-layer failure. -/
inductive DbError
  | donorNotFound
  | campaignNotFound
  | donationNotFound
  | storageFailure
  deriving DecidableEq, Repr

/-- SELECT from donors WHERE id = did AND tenant_id = tid. -/
def findDonor (did : Nat) (tid : String) (s : DbState) : Option Donor :=
  s.donors.find? (fun d => decide (d.id = did ∧ d.tenantId = tid))

/-- SELECT from campaigns WHERE id = cid AND tenant_id = tid. -/
def findCampaign (cid : Nat) (tid : String) (s : DbState) : Option Campaign :=
  s.campaigns.find? (fun c => decide (c.id = cid ∧ c.tenantId = tid))

/-- SELECT from donations WHERE id = did AND tenant_id = tid. -/
def findDonation (did : Nat) (tid : String) (s : DbState) : Option Donation :=
  s.donations.find? (fun d => decide (d.id = did ∧ d.tenantId = tid))

/-- JavaScript truthiness of a nullable numeric id (`if (x)`): both null and 0
are falsy. -/
def truthyId : Option Nat → Bool
  | none => false
  | some n => decide (n ≠ 0)

/-- The id carried by a nullable id (0 when null; only used under `truthyId`). -/
def idOf : Option Nat → Nat
  | none => 0
  | some n => n

/-- Truthiness of a patch field that is an optional nullable id:
`input.x !== undefined` and then `if (input.x)`. -/
def truthyPatchId : Option (Option Nat) → Bool
  | none => false
  | some o => truthyId o

/-- The id carried by an optional nullable patch id. -/
def patchIdOf : Option (Option Nat) → Nat
  | none => 0
  | some o => idOf o

/-- UPDATE campaigns SET current_amount_raised = current_amount_raised + delta
WHERE id = cid (the atomic SQL add used by the donation handlers; note the
source applies it with no tenant filter). -/
def adjustCampaignAmount (cid : Nat) (delta : ℤ) (cs : List Campaign) : List Campaign :=
  cs.map (fun c =>
    if c.id = cid then { c with currentAmountRaised := c.currentAmountRaised + delta } else c)

/-- The contribution of one donation row to the Received-sum of campaign `cid`. -/
def donationContribution (cid : Nat) (d : Donation) : ℤ :=
  if d.campaignId = some cid ∧ d.status = DonationStatus.Received then d.amount else 0

/-- Sum of d.amount over donations d with d.campaignId = cid and
d.status = Received (the aggregate of the spec invariant). -/
def receivedSum (cid : Nat) : List Donation → ℤ
  | [] => 0
  | d :: ds => donationContribution cid d + receivedSum cid ds

/-- The stored currentAmountRaised of the campaign with id `cid`, if present. -/
def campaignAmountIn (cid : Nat) (cs : List Campaign) : Option ℤ :=
  (cs.find? (fun c => decide (c.id = cid))).map Campaign.currentAmountRaised

/-- The stored currentAmountRaised of campaign `cid` in state `s`. -/
def campaignAmount (cid : Nat) (s : DbState) : Option ℤ :=
  campaignAmountIn cid s.campaigns

/-- The row inserted by createDonation, with the serial-assigned id `did`. -/
def newDonationRow (input : CreateDonationInput) (did : Nat) : Donation :=
  { id := did
    tenantId := input.tenantId
    donorId := input.donorId
    campaignId := input.campaignId
    amount := input.amount
    date := input.date
    status := input.status
    paymentMethod := input.paymentMethod
    notes := input.notes
    customFields := input.customFields }

/-- Translation of createDonation (src/unnamed/part_004, lines 1223-1291):
validate the donor in the tenant, validate the campaign in the tenant when the
campaign id is truthy, insert the donation row, and when the campaign id is
truthy and the status is Received add the amount to that campaign's
currentAmountRaised.  Errors carry the store state at the point of the throw. -/
def createDonation (input : CreateDonationInput) (s : DbState) :
    Except (DbError × DbState) (Donation × DbState) :=
  if (findDonor input.donorId input.tenantId s).isNone then
    Except.error (DbError.donorNotFound, s)
  else if truthyId input.campaignId &&
      (findCampaign (idOf input.campaignId) input.tenantId s).isNone then
    Except.error (DbError.campaignNotFound, s)
  else
    let row := newDonationRow input s.nextDonationId
    let s1 : DbState :=
      { s with donations := s.donations ++ [row], nextDonationId := s.nextDonationId + 1 }
    let s2 : DbState :=
      if truthyId input.campaignId && decide (input.status = DonationStatus.Received) then
        { s1 with campaigns := adjustCampaignAmount (idOf input.campaignId) input.amount s1.campaigns }
      else s1
    Except.ok (row, s2)

/-- The patch application of updateDonation: every key present in the input
(`!== undefined`) overwrites the stored field. -/
def applyDonationPatch (p : UpdateDonationInput) (d : Donation) : Donation :=
  { d with
    donorId := p.donorId.getD d.donorId
    campaignId := p.campaignId.getD d.campaignId
    amount := p.amount.getD d.amount
    date := p.date.getD d.date
    status := p.status.getD d.status
    paymentMethod := p.paymentMethod.getD d.paymentMethod
    notes := p.notes.getD d.notes
    customFields := p.customFields.getD d.customFields }

/-- Translation of updateDonation (src/unnamed/part_004, lines 1389-1496):
fetch the donation by id and tenant, validate a truthy patched donor id,
validate a present-and-truthy patched campaign id, write the patched row
(WHERE id only), then subtract the old amount from the old campaign when the
old (campaignId, status) pair was truthy-and-Received and add the effective new
amount to the effective new campaign when the new pair is truthy-and-Received. -/
def updateDonation (p : UpdateDonationInput) (tid : String) (s : DbState) :
    Except (DbError × DbState) (Donation × DbState) :=
  match findDonation p.id tid s with
  | none => Except.error (DbError.donationNotFound, s)
  | some old =>
    if truthyId p.donorId && (findDonor (idOf p.donorId) tid s).isNone then
      Except.error (DbError.donorNotFound, s)
    else if truthyPatchId p.campaignId &&
        (findCampaign (patchIdOf p.campaignId) tid s).isNone then
      Except.error (DbError.campaignNotFound, s)
    else
      let s1 : DbState :=
        { s with donations :=
            s.donations.map (fun d => if d.id = p.id then applyDonationPatch p d else d) }
      let newAmount := p.amount.getD old.amount
      let newCampaignId := p.campaignId.getD old.campaignId
      let newStatus := p.status.getD old.status
      let s2 : DbState :=
        if truthyId old.campaignId && decide (old.status = DonationStatus.Received) then
          { s1 with campaigns :=
              adjustCampaignAmount (idOf old.campaignId) (-old.amount) s1.campaigns }
        else s1
      let s3 : DbState :=
        if truthyId newCampaignId && decide (newStatus = DonationStatus.Received) then
          { s2 with campaigns :=
              adjustCampaignAmount (idOf newCampaignId) newAmount s2.campaigns }
        else s2
      Except.ok (applyDonationPatch p old, s3)

/-- Translation of deleteDonation (src/unnamed/part_004, lines 1498-1534):
fetch the donation by id and tenant, delete the row (WHERE id only), then
subtract the amount from its campaign when the stored (campaignId, status)
pair is truthy-and-Received. -/
def deleteDonation (did : Nat) (tid : String) (s : DbState) :
    Except (DbError × DbState) DbState :=
  match findDonation did tid s with
  | none => Except.error (DbError.donationNotFound, s)
  | some dn =>
    let s1 : DbState := { s with donations := s.donations.filter (fun d => decide (d.id ≠ did)) }
    let s2 : DbState :=
      if truthyId dn.campaignId && decide (dn.status = DonationStatus.Received) then
        { s1 with campaigns :=
            adjustCampaignAmount (idOf dn.campaignId) (-dn.amount) s1.campaigns }
      else s1
    Except.ok s2

/-- The patch application of updateCampaign: every key present in the input
overwrites the stored field, including currentAmountRaised. -/
def applyCampaignPatch (p : UpdateCampaignInput) (c : Campaign) : Campaign :=
  { c with
    name := p.name.getD c.name
    description := p.description.getD c.description
    startDate := p.startDate.getD c.startDate
    endDate := p.endDate.getD c.endDate
    goalAmount := p.goalAmount.getD c.goalAmount
    currentAmountRaised := p.currentAmountRaised.getD c.currentAmountRaised
    status := p.status.getD c.status
    customFields := p.customFields.getD c.customFields }

/-- Translation of updateCampaign (src/unnamed/part_007, lines 185-226):
UPDATE campaigns SET (present fields) WHERE id AND tenant_id, throwing when no
row matched, returning the updated row. -/
def updateCampaign (p : UpdateCampaignInput) (tid : String) (s : DbState) :
    Except (DbError × DbState) (Campaign × DbState) :=
  match s.campaigns.find? (fun c => decide (c.id = p.id ∧ c.tenantId = tid)) with
  | none => Except.error (DbError.campaignNotFound, s)
  | some c =>
    let s1 : DbState :=
      { s with campaigns :=
          s.campaigns.map (fun c' =>
            if c'.id = p.id ∧ c'.tenantId = tid then applyCampaignPatch p c' else c') }
    Except.ok (applyCampaignPatch p c, s1)

/-- Translation of deleteCampaign (src/unnamed/part_007, lines 228-244):
DELETE from campaigns WHERE id AND tenant_id, throwing when the row count is
zero.  Nothing else in the store is touched. -/
def deleteCampaign (cid : Nat) (tid : String) (s : DbState) :
    Except (DbError × DbState) DbState :=
  let remaining := s.campaigns.filter (fun c => decide (¬ (c.id = cid ∧ c.tenantId = tid)))
  if remaining.length = s.campaigns.length then
    Except.error (DbError.campaignNotFound, s)
  else
    Except.ok { s with campaigns := remaining }

/-- createDonation with a storage fault injected at statement number `faultAt`
(0 = the donation INSERT, 1 = the campaign UPDATE).  The source issues these
statements as separate autocommitted awaits with no enclosing transaction
(src/unnamed/part_004, lines 1253-1285), so statements completed before the
faulting one remain applied and the catch block merely rethrows. -/
def createDonationWithFault (input : CreateDonationInput) (s : DbState) (faultAt : Nat) :
    Except (DbError × DbState) (Donation × DbState) :=
  if (findDonor input.donorId input.tenantId s).isNone then
    Except.error (DbError.donorNotFound, s)
  else if truthyId input.campaignId &&
      (findCampaign (idOf input.campaignId) input.tenantId s).isNone then
    Except.error (DbError.campaignNotFound, s)
  else if faultAt = 0 then
    Except.error (DbError.storageFailure, s)
  else
    let row := newDonationRow input s.nextDonationId
    let s1 : DbState :=
      { s with donations := s.donations ++ [row], nextDonationId := s.nextDonationId + 1 }
    if truthyId input.campaignId && decide (input.status = DonationStatus.Received) then
      if faultAt = 1 then
        Except.error (DbError.storageFailure, s1)
      else
        Except.ok (row,
          { s1 with campaigns :=
              adjustCampaignAmount (idOf input.campaignId) input.amount s1.campaigns })
    else
      Except.ok (row, s1)

/-- Structural facts guaranteed by the schema: serial primary keys are
positive and unique, and the donations id generator is ahead of every stored
donation id. -/
def WF (s : DbState) : Prop :=
  (∀ c ∈ s.campaigns, 1 ≤ c.id) ∧
  (s.campaigns.map Campaign.id).Nodup ∧
  (s.donations.map Donation.id).Nodup ∧
  (∀ d ∈ s.donations, d.id < s.nextDonationId)

/-- The spec invariant: every campaign's stored currentAmountRaised equals the
sum of the amounts of the Received donations linked to it. -/
def campaignInvariant (s : DbState) : Prop :=
  ∀ c ∈ s.campaigns, c.currentAmountRaised = receivedSum c.id s.donations

instance decidableWF (s : DbState) : Decidable (WF s) := by
  unfold WF
  infer_instance

instance decidableCampaignInvariant (s : DbState) : Decidable (campaignInvariant s) := by
  unfold campaignInvariant
  infer_instance

/-- One successfully completed donation-lifecycle operation. -/
def DonationStep (s s' : DbState) : Prop :=
  (∃ i r, createDonation i s = Except.ok (r, s')) ∨
  (∃ p tid r, updateDonation p tid s = Except.ok (r, s')) ∨
  (∃ did tid, deleteDonation did tid s = Except.ok s')

/-- Whether a handler call succeeded (the promise resolved instead of rejecting). -/
def isOkResult {ε α : Type} : Except ε α → Bool
  | Except.ok _ => true
  | Except.error _ => false

/-- Concrete tenant used by the witness states. -/
def tenantA : String := "tA"

/-- A donor of tenant A. -/
def donorA : Donor :=
  { id := 1, tenantId := tenantA, name := "Ada", email := none, phone := none,
    address := none, notes := none, customFields := none }

/-- A campaign of tenant A with nothing raised yet. -/
def campaignA : Campaign :=
  { id := 1, tenantId := tenantA, name := "Annual Fund", description := none,
    startDate := none, endDate := none, goalAmount := 10000, currentAmountRaised := 0,
    status := CampaignStatus.Active, customFields := none }

/-- A second campaign of tenant A. -/
def campaignB : Campaign :=
  { campaignA with id := 2, name := "Gala" }

/-- A store with one donor, two campaigns and no donations. -/
def baseState : DbState :=
  { donors := [donorA], campaigns := [campaignA, campaignB], donations := [],
    nextDonationId := 1 }

/-- A Received donation of 100 linked to campaign 1. -/
def rDon : Donation :=
  { id := 1, tenantId := tenantA, donorId := 1, campaignId := some 1, amount := 100,
    date := 0, status := DonationStatus.Received, paymentMethod := none, notes := none,
    customFields := none }

/-- A store holding rDon, with campaign 1 carrying the matching total. -/
def richState : DbState :=
  { donors := [donorA],
    campaigns := [{ campaignA with currentAmountRaised := 100 }, campaignB],
    donations := [rDon], nextDonationId := 2 }

/-- A completely empty store. -/
def stateEmpty : DbState :=
  { donors := [], campaigns := [], donations := [], nextDonationId := 1 }

/-- A create input: donation of 100, Received, linked to campaign 1. -/
def inputC2 : CreateDonationInput :=
  { tenantId := tenantA, donorId := 1, campaignId := some 1, amount := 100, date := 0,
    status := DonationStatus.Received, paymentMethod := none, notes := none,
    customFields := none }

/-- The state left behind when the campaign UPDATE of createDonation inputC2 faults
after the INSERT committed. -/
def stateC7mid : DbState :=
  { donors := [donorA], campaigns := [campaignA, campaignB],
    donations := [newDonationRow inputC2 1], nextDonationId := 2 }

/-- A patch that only flips the status of donation 1 to Cancelled. -/
def patchC3 : UpdateDonationInput :=
  { id := 1, donorId := none, campaignId := none, amount := none, date := none,
    status := some DonationStatus.Cancelled, paymentMethod := none, notes := none,
    customFields := none }

/-- The store after applying patchC3 to richState. -/
def stateC3after : DbState :=
  { donors := [donorA],
    campaigns := [{ campaignA with currentAmountRaised := 0 }, campaignB],
    donations := [applyDonationPatch patchC3 rDon], nextDonationId := 2 }

/-- The store after deleting donation 1 from richState. -/
def stateC4after : DbState :=
  { donors := [donorA],
    campaigns := [{ campaignA with currentAmountRaised := 0 }, campaignB],
    donations := [], nextDonationId := 2 }

/-- A create input whose campaignId is the non-null JavaScript-falsy id 0. -/
def inputC5 : CreateDonationInput :=
  { inputC2 with campaignId := some 0 }

/-- A store with a donor but no campaign at all. -/
def stateC5 : DbState :=
  { donors := [donorA], campaigns := [], donations := [], nextDonationId := 1 }

/-- A campaign patch that sets currentAmountRaised directly to 999. -/
def inputC9 : UpdateCampaignInput :=
  { id := 1, name := none, description := none, startDate := none, endDate := none,
    goalAmount := none, currentAmountRaised := some 999, status := none,
    customFields := none }

/-- The store after updateCampaign inputC9 on baseState. -/
def stateC9after : DbState :=
  { donors := [donorA],
    campaigns := [{ campaignA with currentAmountRaised := 999 }, campaignB],
    donations := [], nextDonationId := 1 }

/-- A Pledged donation of 25 linked to campaign 2. -/
def pledgeDon : Donation :=
  { rDon with campaignId := some 2, status := DonationStatus.Pledged, amount := 25 }

/-- A store with a donation linked to campaign 2. -/
def stateC10 : DbState :=
  { donors := [donorA], campaigns := [campaignA, campaignB], donations := [pledgeDon],
    nextDonationId := 2 }

/-- stateC10 after deleting campaign 2: the donation row survives, dangling. -/
def stateC10after : DbState :=
  { donors := [donorA], campaigns := [campaignA], donations := [pledgeDon],
    nextDonationId := 2 }

lemma applyDonationPatch_id (p : UpdateDonationInput) (d : Donation) :
    (applyDonationPatch p d).id = d.id := rfl

lemma applyDonationPatch_tenantId (p : UpdateDonationInput) (d : Donation) :
    (applyDonationPatch p d).tenantId = d.tenantId := rfl

lemma mem_adjust {cs : List Campaign} {t : Nat} {δ : ℤ} {c' : Campaign}
    (h : c' ∈ adjustCampaignAmount t δ cs) :
    ∃ c ∈ cs, c'.id = c.id ∧ c'.tenantId = c.tenantId ∧
      c'.currentAmountRaised = c.currentAmountRaised + (if c.id = t then δ else 0) :=
  by
  unfold adjustCampaignAmount at h
  obtain ⟨c, hc, rfl⟩ := List.mem_map.mp h
  refine ⟨c, hc, ?_, ?_, ?_⟩ <;> split <;> simp

lemma adjust_map_id (t : Nat) (δ : ℤ) (cs : List Campaign) :
    (adjustCampaignAmount t δ cs).map Campaign.id = cs.map Campaign.id :=
  by
  induction cs with
  | nil => rfl
  | cons c rest ih =>
    simp only [adjustCampaignAmount, List.map_cons] at ih ⊢
    rw [ih]
    split <;> simp

lemma receivedSum_append (cid : Nat) (ds : List Donation) (d : Donation) :
    receivedSum cid (ds ++ [d]) = receivedSum cid ds + donationContribution cid d :=
  by
  induction ds with
  | nil => simp [receivedSum]
  | cons x rest ih => simp [receivedSum, ih]; ring

lemma map_patch_eq_of_ne {ds : List Donation} {pid : Nat} (f : Donation → Donation)
    (h : ∀ d ∈ ds, d.id ≠ pid) :
    ds.map (fun d => if d.id = pid then f d else d) = ds :=
  by
  induction ds with
  | nil => rfl
  | cons x rest ih =>
    simp only [List.map_cons, List.cons.injEq]
    constructor
    · rw [if_neg (h x (by simp))]
    · exact ih fun d hd => h d (by simp [hd])

lemma filter_ne_eq_of_ne {ds : List Donation} {did : Nat}
    (h : ∀ d ∈ ds, d.id ≠ did) :
    ds.filter (fun d => decide (d.id ≠ did)) = ds :=
  by
  induction ds with
  | nil => rfl
  | cons x rest ih =>
    rw [List.filter_cons_of_pos (by simp [h x (by simp)])]
    rw [ih fun d hd => h d (by simp [hd])]

lemma receivedSum_map_patch {ds : List Donation} {pid : Nat} {tid : String} {old : Donation}
    (f : Donation → Donation)
    (hn : (ds.map Donation.id).Nodup)
    (hf : ds.find? (fun d => decide (d.id = pid ∧ d.tenantId = tid)) = some old)
    (cid : Nat) :
    receivedSum cid (ds.map (fun d => if d.id = pid then f d else d))
      = receivedSum cid ds - donationContribution cid old + donationContribution cid (f old) :=
  by
  induction ds with
  | nil => simp at hf
  | cons x rest ih =>
    simp only [List.map_cons, List.nodup_cons] at hn
    by_cases hp : (x.id = pid ∧ x.tenantId = tid)
    · rw [List.find?_cons_of_pos _ (by simpa using hp)] at hf
      obtain rfl : x = old := by simpa using hf
      have hrest : ∀ d ∈ rest, d.id ≠ pid := by
        intro d hd hdid
        exact hn.1 (by rw [hp.1, ← hdid]; exact List.mem_map_of_mem Donation.id hd)
      simp only [List.map_cons, if_pos hp.1, map_patch_eq_of_ne f hrest, receivedSum]
      ring
    · rw [List.find?_cons_of_neg _ (by simpa using hp)] at hf
      have hmem := List.mem_of_find?_eq_some hf
      have hold : old.id = pid ∧ old.tenantId = tid := by
        simpa using List.find?_some hf
      have hx : x.id ≠ pid := by
        intro hxe
        exact hn.1 (hxe ▸ hold.1 ▸ List.mem_map_of_mem Donation.id hmem)
      simp only [List.map_cons, if_neg hx, receivedSum, ih hn.2 hf]
      ring

lemma receivedSum_filter_ne {ds : List Donation} {did : Nat} {tid : String} {dn : Donation}
    (hn : (ds.map Donation.id).Nodup)
    (hf : ds.find? (fun d => decide (d.id = did ∧ d.tenantId = tid)) = some dn)
    (cid : Nat) :
    receivedSum cid (ds.filter (fun d => decide (d.id ≠ did)))
      = receivedSum cid ds - donationContribution cid dn :=
  by
  induction ds with
  | nil => simp at hf
  | cons x rest ih =>
    simp only [List.map_cons, List.nodup_cons] at hn
    by_cases hp : (x.id = did ∧ x.tenantId = tid)
    · rw [List.find?_cons_of_pos _ (by simpa using hp)] at hf
      obtain rfl : x = dn := by simpa using hf
      have hrest : ∀ d ∈ rest, d.id ≠ did := by
        intro d hd hdid
        exact hn.1 (by rw [hp.1, ← hdid]; exact List.mem_map_of_mem Donation.id hd)
      rw [List.filter_cons_of_neg (by simp [hp.1])]
      rw [filter_ne_eq_of_ne hrest]
      simp only [receivedSum]
      ring
    · rw [List.find?_cons_of_neg _ (by simpa using hp)] at hf
      have hmem := List.mem_of_find?_eq_some hf
      have hdn : dn.id = did ∧ dn.tenantId = tid := by
        simpa using List.find?_some hf
      have hx : x.id ≠ did := by
        intro hxe
        exact hn.1 (hxe ▸ hdn.1 ▸ List.mem_map_of_mem Donation.id hmem)
      rw [List.filter_cons_of_pos (by simp [hx])]
      simp only [receivedSum, ih hn.2 hf]
      ring

lemma find?_map_patch {ds : List Donation} {pid : Nat} {tid : String} {old : Donation}
    (f : Donation → Donation)
    (hfid : ∀ d, (f d).id = d.id) (hft : ∀ d, (f d).tenantId = d.tenantId)
    (hn : (ds.map Donation.id).Nodup)
    (hf : ds.find? (fun d => decide (d.id = pid ∧ d.tenantId = tid)) = some old) :
    (ds.map (fun d => if d.id = pid then f d else d)).find?
        (fun d => decide (d.id = pid ∧ d.tenantId = tid)) = some (f old) :=
  by
  induction ds with
  | nil => simp at hf
  | cons x rest ih =>
    simp only [List.map_cons, List.nodup_cons] at hn
    by_cases hp : (x.id = pid ∧ x.tenantId = tid)
    · rw [List.find?_cons_of_pos _ (by simpa using hp)] at hf
      obtain rfl : x = old := by simpa using hf
      simp only [List.map_cons, if_pos hp.1]
      rw [List.find?_cons_of_pos _ (by simp [hfid, hft, hp.1, hp.2])]
    · rw [List.find?_cons_of_neg _ (by simpa using hp)] at hf
      have hmem := List.mem_of_find?_eq_some hf
      have hold : old.id = pid ∧ old.tenantId = tid := by
        simpa using List.find?_some hf
      have hx : x.id ≠ pid := by
        intro hxe
        exact hn.1 (hxe ▸ hold.1 ▸ List.mem_map_of_mem Donation.id hmem)
      simp only [List.map_cons, if_neg hx]
      rw [List.find?_cons_of_neg _ (by simpa using hp)]
      exact ih hn.2 hf

lemma campaignAmountIn_adjust (x t : Nat) (δ : ℤ) (cs : List Campaign) :
    campaignAmountIn x (adjustCampaignAmount t δ cs)
      = (campaignAmountIn x cs).map (fun a => if x = t then a + δ else a) :=
  by
  induction cs with
  | nil => rfl
  | cons c rest ih =>
    by_cases hx : c.id = x
    · have hid : ((if c.id = t then
          { c with currentAmountRaised := c.currentAmountRaised + δ } else c) : Campaign).id
            = c.id := by split <;> rfl
      simp only [campaignAmountIn, adjustCampaignAmount, List.map_cons]
      rw [List.find?_cons_of_pos _ (by simpa [hid] using hx),
        List.find?_cons_of_pos _ (by simpa using hx)]
      subst hx
      split <;> simp_all
    · have hid : ((if c.id = t then
          { c with currentAmountRaised := c.currentAmountRaised + δ } else c) : Campaign).id
            = c.id := by split <;> rfl
      simp only [campaignAmountIn, adjustCampaignAmount, List.map_cons] at ih ⊢
      rw [List.find?_cons_of_neg _ (by simpa [hid] using hx),
        List.find?_cons_of_neg _ (by simpa using hx)]
      exact ih

lemma campaignAmountIn_zero {cs : List Campaign} (hpos : ∀ c ∈ cs, 1 ≤ c.id) :
    campaignAmountIn 0 cs = none :=
  by
  unfold campaignAmountIn
  rw [List.find?_eq_none.mpr]
  · rfl
  · intro c hc
    have h1 := hpos c hc
    simp only [decide_eq_true_eq]
    omega

lemma findCampaign_zero {s : DbState} (hpos : ∀ c ∈ s.campaigns, 1 ≤ c.id) (tid : String) :
    findCampaign 0 tid s = none :=
  by
  unfold findCampaign
  rw [List.find?_eq_none.mpr]
  intro c hc
  have h1 := hpos c hc
  simp only [decide_eq_true_eq, not_and]
  intro h0
  exact absurd h0 (by omega)

lemma truthy_eq_some {o : Option Nat} {n : Nat} (hn : 1 ≤ n) :
    (truthyId o = true ∧ idOf o = n) ↔ o = some n :=
  by
  cases o with
  | none => simp [truthyId, idOf]
  | some k =>
    simp [truthyId, idOf]
    intro h
    omega

lemma create_ok_shape {i : CreateDonationInput} {s : DbState} {r : Donation} {s' : DbState}
    (h : createDonation i s = Except.ok (r, s')) :
    r = newDonationRow i s.nextDonationId ∧
    s'.donors = s.donors ∧
    s'.nextDonationId = s.nextDonationId + 1 ∧
    s'.donations = s.donations ++ [newDonationRow i s.nextDonationId] ∧
    s'.campaigns = (if truthyId i.campaignId && decide (i.status = DonationStatus.Received)
      then adjustCampaignAmount (idOf i.campaignId) i.amount s.campaigns
      else s.campaigns) :=
  by
  unfold createDonation at h
  split at h
  · simp at h
  · split at h
    · simp at h
    · simp only [Except.ok.injEq, Prod.mk.injEq] at h
      obtain ⟨hr, hs⟩ := h
      subst hs
      refine ⟨hr.symm, ?_, ?_, ?_, ?_⟩ <;>
        by_cases hc : (truthyId i.campaignId && decide (i.status = DonationStatus.Received))
          = true <;>
        simp [hc]

lemma create_err_state {i : CreateDonationInput} {s : DbState} {e : DbError} {s' : DbState}
    (h : createDonation i s = Except.error (e, s')) : s' = s :=
  by
  unfold createDonation at h
  split at h
  · simp only [Except.error.injEq, Prod.mk.injEq] at h
    exact h.2.symm
  · split at h
    · simp only [Except.error.injEq, Prod.mk.injEq] at h
      exact h.2.symm
    · simp at h

lemma create_ok_of_valid {i : CreateDonationInput} {s : DbState}
    (hd : (findDonor i.donorId i.tenantId s).isSome)
    (hc : ∀ cid, i.campaignId = some cid → (findCampaign cid i.tenantId s).isSome) :
    ∃ r s', createDonation i s = Except.ok (r, s') :=
  by
  have h1 : ¬ (findDonor i.donorId i.tenantId s).isNone = true := by
    simp only [Option.isNone_iff_eq_none]
    intro hnone
    rw [hnone] at hd
    simp at hd
  have h2 : ¬ (truthyId i.campaignId
      && (findCampaign (idOf i.campaignId) i.tenantId s).isNone) = true := by
    cases hco : i.campaignId with
    | none => simp [truthyId]
    | some cid =>
      have hcs := hc cid hco
      simp only [truthyId, idOf, Bool.and_eq_true, not_and]
      intro _
      simp only [Option.isNone_iff_eq_none]
      intro hnone
      rw [hnone] at hcs
      simp at hcs
  rw [createDonation, if_neg h1, if_neg h2]
  exact ⟨_, _, rfl⟩

lemma update_ok_shape {p : UpdateDonationInput} {tid : String} {s : DbState}
    {r : Donation} {s' : DbState}
    (h : updateDonation p tid s = Except.ok (r, s')) :
    ∃ old, findDonation p.id tid s = some old ∧
      r = applyDonationPatch p old ∧
      s'.donors = s.donors ∧
      s'.nextDonationId = s.nextDonationId ∧
      s'.donations = s.donations.map (fun d => if d.id = p.id then applyDonationPatch p d else d) ∧
      s'.campaigns =
        (if truthyId (p.campaignId.getD old.campaignId) &&
            decide ((p.status.getD old.status) = DonationStatus.Received)
          then adjustCampaignAmount (idOf (p.campaignId.getD old.campaignId))
            (p.amount.getD old.amount)
            (if truthyId old.campaignId && decide (old.status = DonationStatus.Received)
              then adjustCampaignAmount (idOf old.campaignId) (-old.amount) s.campaigns
              else s.campaigns)
          else (if truthyId old.campaignId && decide (old.status = DonationStatus.Received)
              then adjustCampaignAmount (idOf old.campaignId) (-old.amount) s.campaigns
              else s.campaigns)) :=
  by
  unfold updateDonation at h
  split at h
  · simp at h
  · rename_i old hfound
    refine ⟨old, hfound, ?_⟩
    split at h
    · simp at h
    · split at h
      · simp at h
      · simp only [Except.ok.injEq, Prod.mk.injEq] at h
        obtain ⟨hr, hs⟩ := h
        subst hs
        refine ⟨hr.symm, ?_, ?_, ?_, ?_⟩ <;>
          by_cases hc1 : (truthyId old.campaignId
              && decide (old.status = DonationStatus.Received)) = true <;>
          by_cases hc2 : (truthyId (p.campaignId.getD old.campaignId)
              && decide ((p.status.getD old.status) = DonationStatus.Received)) = true <;>
          simp [hc1, hc2]

lemma update_err_state {p : UpdateDonationInput} {tid : String} {s : DbState}
    {e : DbError} {s' : DbState}
    (h : updateDonation p tid s = Except.error (e, s')) : s' = s :=
  by
  unfold updateDonation at h
  split at h
  · simp only [Except.error.injEq, Prod.mk.injEq] at h
    exact h.2.symm
  · split at h
    · simp only [Except.error.injEq, Prod.mk.injEq] at h
      exact h.2.symm
    · split at h
      · simp only [Except.error.injEq, Prod.mk.injEq] at h
        exact h.2.symm
      · simp at h

lemma delete_ok_shape {did : Nat} {tid : String} {s : DbState} {s' : DbState}
    (h : deleteDonation did tid s = Except.ok s') :
    ∃ dn, findDonation did tid s = some dn ∧
      s'.donors = s.donors ∧
      s'.nextDonationId = s.nextDonationId ∧
      s'.donations = s.donations.filter (fun d => decide (d.id ≠ did)) ∧
      s'.campaigns =
        (if truthyId dn.campaignId && decide (dn.status = DonationStatus.Received)
          then adjustCampaignAmount (idOf dn.campaignId) (-dn.amount) s.campaigns
          else s.campaigns) :=
  by
  unfold deleteDonation at h
  split at h
  · simp at h
  · rename_i dn hfound
    refine ⟨dn, hfound, ?_⟩
    simp only [Except.ok.injEq] at h
    subst h
    refine ⟨?_, ?_, ?_, ?_⟩ <;>
      by_cases hc : (truthyId dn.campaignId && decide (dn.status = DonationStatus.Received))
        = true <;>
      simp [hc]

lemma delete_err_state {did : Nat} {tid : String} {s : DbState} {e : DbError} {s' : DbState}
    (h : deleteDonation did tid s = Except.error (e, s')) : s' = s :=
  by
  unfold deleteDonation at h
  split at h
  · simp only [Except.error.injEq, Prod.mk.injEq] at h
    exact h.2.symm
  · simp at h

lemma updateCampaign_ok_shape {p : UpdateCampaignInput} {tid : String} {s : DbState}
    {r : Campaign} {s' : DbState}
    (h : updateCampaign p tid s = Except.ok (r, s')) :
    ∃ c, s.campaigns.find? (fun c => decide (c.id = p.id ∧ c.tenantId = tid)) = some c ∧
      r = applyCampaignPatch p c ∧
      s'.donors = s.donors ∧
      s'.donations = s.donations ∧
      s'.nextDonationId = s.nextDonationId ∧
      s'.campaigns = s.campaigns.map (fun c' =>
        if c'.id = p.id ∧ c'.tenantId = tid then applyCampaignPatch p c' else c') :=
  by
  unfold updateCampaign at h
  split at h
  · simp at h
  · rename_i c hfound
    refine ⟨c, hfound, ?_⟩
    simp only [Except.ok.injEq, Prod.mk.injEq] at h
    obtain ⟨hr, hs⟩ := h
    subst hs
    exact ⟨hr.symm, rfl, rfl, rfl, rfl⟩

lemma deleteCampaign_ok_shape {cid : Nat} {tid : String} {s : DbState} {s' : DbState}
    (h : deleteCampaign cid tid s = Except.ok s') :
    s'.donors = s.donors ∧
    s'.donations = s.donations ∧
    s'.nextDonationId = s.nextDonationId ∧
    s'.campaigns = s.campaigns.filter (fun c => decide (¬ (c.id = cid ∧ c.tenantId = tid))) :=
  by
  unfold deleteCampaign at h
  simp only [] at h
  split at h
  · simp at h
  · simp only [Except.ok.injEq] at h
    subst h
    exact ⟨rfl, rfl, rfl, rfl⟩

lemma mem_adjust_ite {cs : List Campaign} {b : Bool} {t : Nat} {δ : ℤ} {c' : Campaign}
    (h : c' ∈ (if b = true then adjustCampaignAmount t δ cs else cs)) :
    ∃ c ∈ cs, c'.id = c.id ∧ c'.tenantId = c.tenantId ∧
      c'.currentAmountRaised = c.currentAmountRaised +
        (if b = true then (if c.id = t then δ else 0) else 0) :=
  by
  split at h
  · rename_i hb
    obtain ⟨c, hc, h1, h2, h3⟩ := mem_adjust h
    exact ⟨c, hc, h1, h2, by rw [if_pos hb]; exact h3⟩
  · rename_i hb
    exact ⟨c', h, rfl, rfl, by rw [if_neg hb]; ring⟩

lemma map_id_adjust_ite (b : Bool) (t : Nat) (δ : ℤ) (cs : List Campaign) :
    ((if b = true then adjustCampaignAmount t δ cs else cs) : List Campaign).map Campaign.id
      = cs.map Campaign.id :=
  by
  split
  · exact adjust_map_id t δ cs
  · rfl

lemma contribution_bridge {o : Option Nat} {st : DonationStatus} (amt : ℤ) {cid : Nat}
    (hcid : 1 ≤ cid) :
    (if (truthyId o && decide (st = DonationStatus.Received)) = true
      then (if cid = idOf o then amt else 0) else 0)
    = (if o = some cid ∧ st = DonationStatus.Received then amt else 0) :=
  by
  cases o with
  | none => simp [truthyId]
  | some k =>
    by_cases hk : k = 0
    · subst hk
      simp only [truthyId, idOf]
      rw [if_neg (by simp), if_neg ?_]
      rintro ⟨hsome, -⟩
      have : cid = 0 := by simpa using hsome.symm
      omega
    · by_cases hst : st = DonationStatus.Received
      · simp only [truthyId, idOf, hst]
        rw [if_pos (by simp [hk])]
        by_cases hc : cid = k
        · subst hc
          simp
        · rw [if_neg hc, if_neg (by simp [Ne.symm hc])]
      · simp only [truthyId, idOf]
        rw [if_neg (by simp [hst]), if_neg (by simp [hst])]

lemma inv_of_delta {s s' : DbState} (Δ : Nat → ℤ)
    (hinv : campaignInvariant s)
    (hpos : ∀ c ∈ s.campaigns, 1 ≤ c.id)
    (hcamp : ∀ c' ∈ s'.campaigns, ∃ c ∈ s.campaigns, c'.id = c.id ∧
        c'.currentAmountRaised = c.currentAmountRaised + Δ c.id)
    (hsum : ∀ cid, 1 ≤ cid →
        receivedSum cid s'.donations = receivedSum cid s.donations + Δ cid) :
    campaignInvariant s' :=
  by
  intro c' hc'
  obtain ⟨c, hc, hid, hamt⟩ := hcamp c' hc'
  rw [hamt, hid, hsum c.id (hpos c hc), hinv c hc]

lemma create_preserves {i : CreateDonationInput} {s : DbState} {r : Donation} {s' : DbState}
    (hwf : WF s) (hinv : campaignInvariant s)
    (h : createDonation i s = Except.ok (r, s')) : WF s' ∧ campaignInvariant s' :=
  by
  obtain ⟨hr, hdonors, hnext, hdons, hcamps⟩ := create_ok_shape h
  obtain ⟨hpos, hcnd, hdnd, hdlt⟩ := hwf
  have hcamps' : s'.campaigns = (if (truthyId i.campaignId
      && decide (i.status = DonationStatus.Received)) = true
      then adjustCampaignAmount (idOf i.campaignId) i.amount s.campaigns
      else s.campaigns) := hcamps
  constructor
  · refine ⟨?_, ?_, ?_, ?_⟩
    · intro c' hc'
      rw [hcamps'] at hc'
      obtain ⟨c, hc, hid, -, -⟩ := mem_adjust_ite hc'
      rw [hid]
      exact hpos c hc
    · rw [hcamps', map_id_adjust_ite]
      exact hcnd
    · rw [hdons, List.map_append]
      refine List.Nodup.append hdnd (by simp) ?_
      intro a ha hb
      simp only [List.map_cons, List.map_nil, List.mem_singleton] at hb
      obtain ⟨d, hd, rfl⟩ := List.mem_map.mp ha
      have := hdlt d hd
      rw [hb] at this
      simp [newDonationRow] at this
    · intro d hd
      rw [hdons] at hd
      rw [hnext]
      rcases List.mem_append.mp hd with hold | hnew
      · have := hdlt d hold
        omega
      · simp only [List.mem_singleton] at hnew
        subst hnew
        simp [newDonationRow]
  · refine inv_of_delta
      (fun cid => if i.campaignId = some cid ∧ i.status = DonationStatus.Received
        then i.amount else 0) hinv hpos ?_ ?_
    · intro c' hc'
      rw [hcamps'] at hc'
      obtain ⟨c, hc, hid, -, hamt⟩ := mem_adjust_ite hc'
      exact ⟨c, hc, hid, by rw [hamt, contribution_bridge i.amount (hpos c hc)]⟩
    · intro cid hcid
      rw [hdons, receivedSum_append]
      simp only [donationContribution, newDonationRow]

lemma update_preserves {p : UpdateDonationInput} {tid : String} {s : DbState}
    {r : Donation} {s' : DbState}
    (hwf : WF s) (hinv : campaignInvariant s)
    (h : updateDonation p tid s = Except.ok (r, s')) : WF s' ∧ campaignInvariant s' :=
  by
  obtain ⟨old, hfound, hr, hdonors, hnext, hdons, hcamps⟩ := update_ok_shape h
  obtain ⟨hpos, hcnd, hdnd, hdlt⟩ := hwf
  have hmapid : s'.donations.map Donation.id = s.donations.map Donation.id := by
    rw [hdons, List.map_map]
    refine List.map_congr_left ?_
    intro d _
    simp only [Function.comp]
    split <;> rfl
  constructor
  · refine ⟨?_, ?_, ?_, ?_⟩
    · intro c' hc'
      rw [hcamps] at hc'
      obtain ⟨c1, hc1, hid1, -, -⟩ := mem_adjust_ite hc'
      obtain ⟨c, hc, hid, -, -⟩ := mem_adjust_ite hc1
      rw [hid1, hid]
      exact hpos c hc
    · rw [hcamps, map_id_adjust_ite, map_id_adjust_ite]
      exact hcnd
    · rw [hmapid]
      exact hdnd
    · intro d hd
      rw [hdons] at hd
      obtain ⟨d0, hd0, rfl⟩ := List.mem_map.mp hd
      rw [hnext]
      have := hdlt d0 hd0
      split <;> simp [applyDonationPatch] <;> omega
  · refine inv_of_delta
      (fun cid => donationContribution cid (applyDonationPatch p old)
        - donationContribution cid old) hinv hpos ?_ ?_
    · intro c' hc'
      rw [hcamps] at hc'
      obtain ⟨c1, hc1, hid1, -, hamt1⟩ := mem_adjust_ite hc'
      obtain ⟨c, hc, hid, -, hamt⟩ := mem_adjust_ite hc1
      refine ⟨c, hc, by rw [hid1, hid], ?_⟩
      show c'.currentAmountRaised = c.currentAmountRaised +
        (donationContribution c.id (applyDonationPatch p old) - donationContribution c.id old)
      rw [hamt1, hid, hamt]
      rw [contribution_bridge (-old.amount) (hpos c hc),
        contribution_bridge (p.amount.getD old.amount) (hpos c hc)]
      have hcnew : donationContribution c.id (applyDonationPatch p old)
          = (if p.campaignId.getD old.campaignId = some c.id ∧
              p.status.getD old.status = DonationStatus.Received
            then p.amount.getD old.amount else 0) := by
        simp [donationContribution, applyDonationPatch]
      have hcold : (if old.campaignId = some c.id ∧ old.status = DonationStatus.Received
          then (-old.amount : ℤ) else 0) = -donationContribution c.id old := by
        simp only [donationContribution]
        split <;> ring
      rw [hcnew, hcold]
      ring
    · intro cid hcid
      rw [hdons, receivedSum_map_patch (applyDonationPatch p) hdnd hfound]
      ring

lemma delete_preserves {did : Nat} {tid : String} {s : DbState} {s' : DbState}
    (hwf : WF s) (hinv : campaignInvariant s)
    (h : deleteDonation did tid s = Except.ok s') : WF s' ∧ campaignInvariant s' :=
  by
  obtain ⟨dn, hfound, hdonors, hnext, hdons, hcamps⟩ := delete_ok_shape h
  obtain ⟨hpos, hcnd, hdnd, hdlt⟩ := hwf
  constructor
  · refine ⟨?_, ?_, ?_, ?_⟩
    · intro c' hc'
      rw [hcamps] at hc'
      obtain ⟨c, hc, hid, -, -⟩ := mem_adjust_ite hc'
      rw [hid]
      exact hpos c hc
    · rw [hcamps, map_id_adjust_ite]
      exact hcnd
    · rw [hdons]
      exact (List.Sublist.map Donation.id (List.filter_sublist s.donations)).nodup hdnd
    · intro d hd
      rw [hdons] at hd
      rw [hnext]
      exact hdlt d (List.mem_of_mem_filter hd)
  · refine inv_of_delta (fun cid => -donationContribution cid dn) hinv hpos ?_ ?_
    · intro c' hc'
      rw [hcamps] at hc'
      obtain ⟨c, hc, hid, -, hamt⟩ := mem_adjust_ite hc'
      refine ⟨c, hc, hid, ?_⟩
      rw [hamt, contribution_bridge (-dn.amount) (hpos c hc)]
      congr 1
      simp only [donationContribution]
      split <;> ring
    · intro cid hcid
      rw [hdons, receivedSum_filter_ne hdnd hfound]
      ring

lemma step_preserves {s s' : DbState} (hwf : WF s) (hinv : campaignInvariant s)
    (hst : DonationStep s s') : WF s' ∧ campaignInvariant s' :=
  by
  rcases hst with ⟨i, r, h⟩ | ⟨p, tid, r, h⟩ | ⟨did, tid, h⟩
  · exact create_preserves hwf hinv h
  · exact update_preserves hwf hinv h
  · exact delete_preserves hwf hinv h

lemma campaignAmountIn_adjust_ite (x : Nat) (b : Bool) (t : Nat) (δ : ℤ) (cs : List Campaign) :
    campaignAmountIn x (if b = true then adjustCampaignAmount t δ cs else cs)
      = (campaignAmountIn x cs).map
          (fun a => a + (if b = true then (if x = t then δ else 0) else 0)) :=
  by
  split
  · rename_i hb
    rw [campaignAmountIn_adjust]
    cases campaignAmountIn x cs with
    | none => rfl
    | some a =>
      simp only [Option.map_some', hb, if_pos]
      congr 1
      split <;> ring
  · rename_i hb
    cases campaignAmountIn x cs with
    | none => rfl
    | some a => simp [hb]

lemma applyCampaignPatch_id (p : UpdateCampaignInput) (c : Campaign) :
    (applyCampaignPatch p c).id = c.id := rfl

lemma applyCampaignPatch_tenantId (p : UpdateCampaignInput) (c : Campaign) :
    (applyCampaignPatch p c).tenantId = c.tenantId := rfl

lemma map_campaign_eq_of_ne {cs : List Campaign} {p : UpdateCampaignInput} {tid : String}
    (h : ∀ c ∈ cs, c.id ≠ p.id) :
    cs.map (fun c' =>
      if c'.id = p.id ∧ c'.tenantId = tid then applyCampaignPatch p c' else c') = cs :=
  by
  induction cs with
  | nil => rfl
  | cons a rest ih =>
    simp only [List.map_cons, List.cons.injEq]
    constructor
    · rw [if_neg (fun hcond => h a (by simp) hcond.1)]
    · exact ih fun c hc => h c (by simp [hc])

lemma campaignAmountIn_update {cs : List Campaign} {p : UpdateCampaignInput} {tid : String}
    {c : Campaign}
    (hn : (cs.map Campaign.id).Nodup)
    (hf : cs.find? (fun c' => decide (c'.id = p.id ∧ c'.tenantId = tid)) = some c) :
    campaignAmountIn p.id cs = some c.currentAmountRaised ∧
    ∀ x, campaignAmountIn x (cs.map (fun c' =>
        if c'.id = p.id ∧ c'.tenantId = tid then applyCampaignPatch p c' else c'))
      = (if x = p.id then some ((applyCampaignPatch p c).currentAmountRaised)
          else campaignAmountIn x cs) :=
  by
  induction cs with
  | nil => simp at hf
  | cons a rest ih =>
    simp only [List.map_cons, List.nodup_cons] at hn
    by_cases pa : (a.id = p.id ∧ a.tenantId = tid)
    · rw [List.find?_cons_of_pos _ (by simpa using pa)] at hf
      obtain rfl : a = c := by simpa using hf
      have hrest : ∀ c' ∈ rest, c'.id ≠ p.id := by
        intro c' hc' hce
        exact hn.1 (by rw [pa.1, ← hce]; exact List.mem_map_of_mem Campaign.id hc')
      constructor
      · unfold campaignAmountIn
        rw [List.find?_cons_of_pos _ (by simpa using pa.1)]
        rfl
      · intro x
        simp only [List.map_cons, if_pos pa, map_campaign_eq_of_ne hrest]
        by_cases hx : x = p.id
        · subst hx
          unfold campaignAmountIn
          rw [List.find?_cons_of_pos _ (by
            simp only [decide_eq_true_eq, applyCampaignPatch_id]
            exact pa.1)]
          simp
        · unfold campaignAmountIn
          rw [List.find?_cons_of_neg _ (by
              simp only [decide_eq_true_eq, applyCampaignPatch_id]
              rw [pa.1]
              exact fun hpx => hx hpx.symm),
            List.find?_cons_of_neg _ (by
              simp only [decide_eq_true_eq]
              rw [pa.1]
              exact fun hpx => hx hpx.symm)]
          rw [if_neg hx]
    · rw [List.find?_cons_of_neg _ (by simpa using pa)] at hf
      have hmem := List.mem_of_find?_eq_some hf
      have hcp : c.id = p.id ∧ c.tenantId = tid := by
        simpa using List.find?_some hf
      have ha : a.id ≠ p.id := by
        intro hae
        exact hn.1 (by rw [hae, ← hcp.1]; exact List.mem_map_of_mem Campaign.id hmem)
      obtain ⟨ih1, ih2⟩ := ih hn.2 hf
      constructor
      · unfold campaignAmountIn
        rw [List.find?_cons_of_neg _ (by simpa using ha)]
        exact ih1
      · intro x
        simp only [List.map_cons, if_neg pa]
        by_cases hx : a.id = x
        · unfold campaignAmountIn
          rw [if_neg (by rw [← hx]; exact ha),
            List.find?_cons_of_pos _ (by simpa using hx),
            List.find?_cons_of_pos _ (by simpa using hx)]
        · unfold campaignAmountIn
          rw [List.find?_cons_of_neg _ (by simpa using hx),
            List.find?_cons_of_neg _ (by simpa using hx)]
          exact ih2 x

/-- C1: for every campaign C, the invariant C.currentAmountRaised = Σ(d.amount over
donations d with d.campaignId = C.id and d.status = Received) holds in every state
reachable from a schema-well-formed invariant-satisfying state by successfully
completed createDonation, updateDonation and deleteDonation operations. -/
theorem C1_invariant_preserved {s s' : DbState} (hwf : WF s) (hinv : campaignInvariant s)
    (h : Relation.ReflTransGen DonationStep s s') : campaignInvariant s' :=
  by
  have h2 : WF s' ∧ campaignInvariant s' := by
    induction h with
    | refl => exact ⟨hwf, hinv⟩
    | tail _ hstep ih => exact step_preserves ih.1 ih.2 hstep
  exact h2.2

/-- Witness for C1 at a concrete well-formed invariant-satisfying state. -/
theorem C1_invariant_preserved_witness :
    WF baseState ∧ campaignInvariant baseState ∧ campaignInvariant baseState :=
  ⟨by decide, by decide,
    C1_invariant_preserved (by decide) (by decide) Relation.ReflTransGen.refl⟩

/-- C2: createDonation, when the donor resolves in the tenant and the (non-null)
campaign id resolves in the tenant, persists exactly one new donation row carrying
the input fields, and when the campaign id is non-null and the status is Received
it increases exactly the target campaign's currentAmountRaised by the amount; when
the campaign id is null or the status is not Received it leaves every campaign
total unchanged. -/
theorem C2_createDonation_effect (i : CreateDonationInput) (s : DbState) (hwf : WF s)
    (hd : (findDonor i.donorId i.tenantId s).isSome = true)
    (hc : ∀ cid, i.campaignId = some cid → (findCampaign cid i.tenantId s).isSome = true) :
    ∃ r s', createDonation i s = Except.ok (r, s') ∧
      r = newDonationRow i s.nextDonationId ∧
      s'.donations = s.donations ++ [newDonationRow i s.nextDonationId] ∧
      ((∃ cid, i.campaignId = some cid ∧ i.status = DonationStatus.Received ∧
          campaignAmount cid s' = (campaignAmount cid s).map (fun a => a + i.amount) ∧
          ∀ cid', cid' ≠ cid → campaignAmount cid' s' = campaignAmount cid' s) ∨
        ((i.campaignId = none ∨ i.status ≠ DonationStatus.Received) ∧
          ∀ cid, campaignAmount cid s' = campaignAmount cid s)) :=
  by
  obtain ⟨hpos, hcnd, hdnd, hdlt⟩ := hwf
  obtain ⟨r, s', hrun⟩ := create_ok_of_valid hd hc
  obtain ⟨hr, hdonors, hnext, hdons, hcamps⟩ := create_ok_shape hrun
  refine ⟨r, s', hrun, hr, hdons, ?_⟩
  by_cases hcond : (truthyId i.campaignId && decide (i.status = DonationStatus.Received))
      = true
  · left
    rw [if_pos hcond] at hcamps
    obtain ⟨ht, hstatus⟩ : truthyId i.campaignId = true
        ∧ i.status = DonationStatus.Received := by simpa using hcond
    cases hco : i.campaignId with
    | none =>
      rw [hco] at ht
      simp [truthyId] at ht
    | some k =>
      rw [hco] at hcamps
      refine ⟨k, rfl, hstatus, ?_, ?_⟩
      · unfold campaignAmount
        rw [hcamps, campaignAmountIn_adjust]
        cases hval : campaignAmountIn k s.campaigns with
        | none => rfl
        | some a => simp [idOf]
      · intro cid' hne
        unfold campaignAmount
        rw [hcamps, campaignAmountIn_adjust]
        cases hval : campaignAmountIn cid' s.campaigns with
        | none => rfl
        | some a => simp [idOf, hne]
  · right
    rw [if_neg hcond] at hcamps
    constructor
    · cases hco : i.campaignId with
      | none => exact Or.inl rfl
      | some k =>
        right
        intro hstatus
        apply hcond
        have hk : k ≠ 0 := by
          intro h0
          subst h0
          have hx := hc 0 hco
          rw [findCampaign_zero hpos i.tenantId] at hx
          simp at hx
        rw [hco]
        simp [truthyId, hk, hstatus]
    · intro cid
      unfold campaignAmount
      rw [hcamps]

/-- Witness for C2: creating a Received donation of 100 linked to campaign 1 on
baseState raises campaign 1's total from 0 to 100 and leaves campaign 2 at 0. -/
theorem C2_createDonation_effect_witness :
    (findDonor 1 tenantA baseState).isSome = true ∧
    (findCampaign 1 tenantA baseState).isSome = true ∧
    campaignAmount 1 stateC7mid = some 0 ∧
    ∃ r s', createDonation inputC2 baseState = Except.ok (r, s') ∧
      r = newDonationRow inputC2 baseState.nextDonationId ∧
      s'.donations = baseState.donations ++ [newDonationRow inputC2 baseState.nextDonationId] ∧
      ((∃ cid, inputC2.campaignId = some cid ∧ inputC2.status = DonationStatus.Received ∧
          campaignAmount cid s' = (campaignAmount cid baseState).map (fun a => a + inputC2.amount) ∧
          ∀ cid', cid' ≠ cid → campaignAmount cid' s' = campaignAmount cid' baseState) ∨
        ((inputC2.campaignId = none ∨ inputC2.status ≠ DonationStatus.Received) ∧
          ∀ cid, campaignAmount cid s' = campaignAmount cid baseState)) :=
  ⟨by decide, by decide, by decide,
    C2_createDonation_effect inputC2 baseState (by decide) (by decide)
      (by
        intro cid hcid
        have : (1 : Nat) = cid := by simpa [inputC2] using hcid
        subst this
        decide)⟩

/-- C4: deleteDonation on an existing donation of the tenant removes the donation
row, and every campaign's currentAmountRaised changes by minus the donation's
amount exactly when that campaign is the donation's campaign and the donation's
status is Received, and by zero otherwise (in particular, deleting a Pledged
donation leaves every campaign total unchanged). -/
theorem C4_deleteDonation_effect (did : Nat) (tid : String) (s : DbState) (dn : Donation)
    (hwf : WF s) (hfound : findDonation did tid s = some dn) :
    ∃ s', deleteDonation did tid s = Except.ok s' ∧
      s'.donations = s.donations.filter (fun d => decide (d.id ≠ did)) ∧
      (∀ d ∈ s.donations, d.id ≠ did → d ∈ s'.donations) ∧
      ∀ cid, campaignAmount cid s' = (campaignAmount cid s).map (fun a => a +
        (if dn.campaignId = some cid ∧ dn.status = DonationStatus.Received
          then -dn.amount else 0)) :=
  by
  obtain ⟨hpos, hcnd, hdnd, hdlt⟩ := hwf
  have hex : ∃ s', deleteDonation did tid s = Except.ok s' := by
    unfold deleteDonation
    rw [hfound]
    exact ⟨_, rfl⟩
  obtain ⟨s', hrun⟩ := hex
  obtain ⟨dn2, hfound2, hdonors, hnext, hdons, hcamps⟩ := delete_ok_shape hrun
  rw [hfound] at hfound2
  obtain rfl : dn = dn2 := by simpa using hfound2
  refine ⟨s', hrun, hdons, ?_, ?_⟩
  · intro d hd hne
    rw [hdons]
    exact List.mem_filter.mpr ⟨hd, by simp [hne]⟩
  · intro cid
    unfold campaignAmount
    rw [hcamps, campaignAmountIn_adjust_ite]
    by_cases hcid : 1 ≤ cid
    · cases hval : campaignAmountIn cid s.campaigns with
      | none => rfl
      | some a =>
        simp only [Option.map_some']
        congr 1
        rw [contribution_bridge (-dn.amount) hcid]
    · have h0 : cid = 0 := by omega
      subst h0
      rw [campaignAmountIn_zero hpos]
      rfl

/-- Witness for C4: deleting the Received donation rDon (amount 100, campaign 1)
from richState empties the donations table and reduces campaign 1's total to 0. -/
theorem C4_deleteDonation_effect_witness :
    WF richState ∧
    findDonation 1 tenantA richState = some rDon ∧
    stateC4after.donations = richState.donations.filter (fun d => decide (d.id ≠ 1)) ∧
    campaignAmount 1 richState = some 100 ∧
    campaignAmount 1 stateC4after = some 0 :=
  by
  obtain ⟨s', hrun, hdons, hmem, hamt⟩ :=
    C4_deleteDonation_effect 1 tenantA richState rDon (by decide) rfl
  have hpin : deleteDonation 1 tenantA richState = Except.ok stateC4after := rfl
  rw [hpin] at hrun
  obtain rfl : stateC4after = s' := by simpa using hrun
  exact ⟨by decide, rfl, hdons, by decide, by decide⟩

/-- C9 counterexample: the campaign update path accepts currentAmountRaised and
writes it verbatim — updateCampaign with currentAmountRaised = 999 moves the
stored aggregate of campaign 1 from 0 to 999, so a client can set the field to an
arbitrary value through the campaign update operation, contradicting the claim
that updateCampaign leaves currentAmountRaised unchanged. -/
theorem C9_counterexample :
    campaignAmount 1 baseState = some 0 ∧
    updateCampaign inputC9 tenantA baseState
      = Except.ok (applyCampaignPatch inputC9 campaignA, stateC9after) ∧
    campaignAmount 1 stateC9after = some 999 :=
  ⟨rfl, rfl, rfl⟩

/-- C9 (amended): updateCampaign leaves currentAmountRaised unchanged exactly when
the patch omits the field; the update input schema exposes an optional
currentAmountRaised which, when present, is written verbatim to the matched
campaign (every other campaign total unchanged) — an unguarded direct write path
bypassing the donation-lifecycle reconciliation. -/
theorem C9_amended_updateCampaign (p : UpdateCampaignInput) (tid : String) (s : DbState)
    (hwf : WF s) (r : Campaign) (s' : DbState)
    (hrun : updateCampaign p tid s = Except.ok (r, s')) :
    (p.currentAmountRaised = none → ∀ cid, campaignAmount cid s' = campaignAmount cid s) ∧
    (∀ v, p.currentAmountRaised = some v →
      campaignAmount p.id s' = some v ∧
      ∀ cid, cid ≠ p.id → campaignAmount cid s' = campaignAmount cid s) :=
  by
  obtain ⟨hpos, hcnd, hdnd, hdlt⟩ := hwf
  obtain ⟨c, hfound, hr, hdonors, hdons, hnext, hcamps⟩ := updateCampaign_ok_shape hrun
  obtain ⟨hbase, hupd⟩ := campaignAmountIn_update hcnd hfound
  constructor
  · intro hnone cid
    unfold campaignAmount
    rw [hcamps, hupd cid]
    by_cases hx : cid = p.id
    · subst hx
      rw [if_pos rfl, hbase]
      simp [applyCampaignPatch, hnone]
    · rw [if_neg hx]
  · intro v hv
    constructor
    · unfold campaignAmount
      rw [hcamps, hupd p.id, if_pos rfl]
      simp [applyCampaignPatch, hv]
    · intro cid hne
      unfold campaignAmount
      rw [hcamps, hupd cid, if_neg hne]

/-- Witness for C9 amended: the concrete escape-hatch update writes 999 into
campaign 1 and leaves campaign 2 untouched. -/
theorem C9_amended_updateCampaign_witness :
    campaignAmount 1 stateC9after = some 999 ∧
    campaignAmount 2 stateC9after = campaignAmount 2 baseState :=
  ⟨((C9_amended_updateCampaign inputC9 tenantA baseState (by decide)
      (applyCampaignPatch inputC9 campaignA) stateC9after rfl).2 999 rfl).1,
   ((C9_amended_updateCampaign inputC9 tenantA baseState (by decide)
      (applyCampaignPatch inputC9 campaignA) stateC9after rfl).2 999 rfl).2 2 (by decide)⟩

/-- C3: for every successful updateDonation on an existing donation, the returned
and stored row hold the effective new state (the patch field when the key is
present, else the old value), and every campaign K's currentAmountRaised changes
by exactly (newAmount if K is the effective new campaign and the effective new
status is Received, else 0) minus (oldAmount if K was the old campaign and the
old status was Received, else 0) — covering in particular a pure status flip and
a pure campaign move. -/
theorem C3_updateDonation_reconciliation (p : UpdateDonationInput) (tid : String)
    (s : DbState) (old r : Donation) (s' : DbState)
    (hwf : WF s)
    (hold : findDonation p.id tid s = some old)
    (hrun : updateDonation p tid s = Except.ok (r, s')) :
    r = applyDonationPatch p old ∧
    findDonation p.id tid s' = some (applyDonationPatch p old) ∧
    (applyDonationPatch p old).amount = p.amount.getD old.amount ∧
    (applyDonationPatch p old).campaignId = p.campaignId.getD old.campaignId ∧
    (applyDonationPatch p old).status = p.status.getD old.status ∧
    ∀ cid, campaignAmount cid s' = (campaignAmount cid s).map (fun a => a +
      ((if p.campaignId.getD old.campaignId = some cid ∧
          p.status.getD old.status = DonationStatus.Received
        then p.amount.getD old.amount else 0)
       - (if old.campaignId = some cid ∧ old.status = DonationStatus.Received
          then old.amount else 0))) :=
  by
  obtain ⟨hpos, hcnd, hdnd, hdlt⟩ := hwf
  obtain ⟨old2, hfound2, hr, hdonors, hnext, hdons, hcamps⟩ := update_ok_shape hrun
  rw [hold] at hfound2
  obtain rfl : old = old2 := by simpa using hfound2
  refine ⟨hr, ?_, rfl, rfl, rfl, ?_⟩
  · unfold findDonation
    rw [hdons]
    exact find?_map_patch (applyDonationPatch p) (fun d => rfl) (fun d => rfl) hdnd hold
  · intro cid
    unfold campaignAmount
    rw [hcamps, campaignAmountIn_adjust_ite, campaignAmountIn_adjust_ite, Option.map_map]
    by_cases hcid : 1 ≤ cid
    · cases hval : campaignAmountIn cid s.campaigns with
      | none => rfl
      | some a =>
        simp only [Option.map_some', Function.comp]
        congr 1
        rw [contribution_bridge (-old.amount) hcid,
          contribution_bridge (p.amount.getD old.amount) hcid]
        have hneg : (if old.campaignId = some cid ∧ old.status = DonationStatus.Received
            then (-old.amount : ℤ) else 0)
            = -(if old.campaignId = some cid ∧ old.status = DonationStatus.Received
                then old.amount else 0) := by
          split <;> ring
        rw [hneg]
        ring
    · have h0 : cid = 0 := by omega
      subst h0
      rw [campaignAmountIn_zero hpos]
      rfl

/-- Witness for C3: flipping only the status of the Received donation rDon (amount
100, campaign 1) to Cancelled pulls campaign 1's total back from 100 to 0. -/
theorem C3_updateDonation_reconciliation_witness :
    WF richState ∧
    findDonation 1 tenantA richState = some rDon ∧
    updateDonation patchC3 tenantA richState
      = Except.ok (applyDonationPatch patchC3 rDon, stateC3after) ∧
    campaignAmount 1 richState = some 100 ∧
    campaignAmount 1 stateC3after = some 0 ∧
    findDonation 1 tenantA stateC3after = some (applyDonationPatch patchC3 rDon) :=
  by
  have happ := C3_updateDonation_reconciliation patchC3 tenantA richState rDon
    (applyDonationPatch patchC3 rDon) stateC3after (by decide) rfl rfl
  exact ⟨by decide, rfl, rfl, by decide, by decide, happ.2.1⟩

/-- C5 counterexample: with campaignId = 0 — non-null, resolving to no campaign —
createDonation succeeds instead of failing with NotFound("campaign"): the source
guards the campaign check with the JavaScript truthiness test
`if (input.campaignId)`, under which the id 0 is as falsy as null. -/
theorem C5_counterexample :
    inputC5.campaignId = some 0 ∧
    findCampaign 0 inputC5.tenantId stateC5 = none ∧
    isOkResult (createDonation inputC5 stateC5) = true :=
  ⟨rfl, rfl, rfl⟩

/-- C5 (amended): createDonation fails with donorNotFound exactly when the donor
id does not resolve in the tenant; it fails with campaignNotFound exactly when
the donor resolves and the campaign id is non-null, non-zero (JavaScript-truthy)
and does not resolve in the tenant; updateDonation and deleteDonation fail with
donationNotFound exactly when no donation with the given id exists under the
caller's tenant. -/
theorem C5_amended_error_characterization :
    (∀ i s, (∃ s1, createDonation i s = Except.error (DbError.donorNotFound, s1)) ↔
      findDonor i.donorId i.tenantId s = none) ∧
    (∀ i s, (∃ s1, createDonation i s = Except.error (DbError.campaignNotFound, s1)) ↔
      ((findDonor i.donorId i.tenantId s).isSome = true ∧ truthyId i.campaignId = true ∧
        findCampaign (idOf i.campaignId) i.tenantId s = none)) ∧
    (∀ p tid s, (∃ s1, updateDonation p tid s = Except.error (DbError.donationNotFound, s1)) ↔
      findDonation p.id tid s = none) ∧
    (∀ did tid s, (∃ s1, deleteDonation did tid s = Except.error (DbError.donationNotFound, s1)) ↔
      findDonation did tid s = none) :=
  by
  refine ⟨?_, ?_, ?_, ?_⟩
  · intro i s
    constructor
    · rintro ⟨s1, h⟩
      by_cases h1 : (findDonor i.donorId i.tenantId s).isNone = true
      · exact Option.isNone_iff_eq_none.mp h1
      · exfalso
        rw [createDonation, if_neg h1] at h
        split at h
        · simp at h
        · simp at h
    · intro hnone
      exact ⟨s, by rw [createDonation, if_pos (by simp [hnone])]⟩
  · intro i s
    constructor
    · rintro ⟨s1, h⟩
      by_cases h1 : (findDonor i.donorId i.tenantId s).isNone = true
      · rw [createDonation, if_pos h1] at h
        simp at h
      · by_cases h2 : (truthyId i.campaignId &&
            (findCampaign (idOf i.campaignId) i.tenantId s).isNone) = true
        · obtain ⟨ht, hnone⟩ : truthyId i.campaignId = true ∧
              (findCampaign (idOf i.campaignId) i.tenantId s).isNone = true := by
            simpa using h2
          refine ⟨?_, ht, Option.isNone_iff_eq_none.mp hnone⟩
          cases hfd : findDonor i.donorId i.tenantId s with
          | none =>
            rw [hfd] at h1
            simp at h1
          | some d => rfl
        · exfalso
          rw [createDonation, if_neg h1, if_neg h2] at h
          simp at h
    · rintro ⟨hsome, ht, hnone⟩
      have h1 : ¬ (findDonor i.donorId i.tenantId s).isNone = true := by
        cases hfd : findDonor i.donorId i.tenantId s with
        | none => rw [hfd] at hsome; simp at hsome
        | some d => simp
      exact ⟨s, by rw [createDonation, if_neg h1, if_pos (by simp [ht, hnone])]⟩
  · intro p tid s
    constructor
    · rintro ⟨s1, h⟩
      unfold updateDonation at h
      split at h
      · rename_i heq
        exact heq
      · rename_i old heq
        exfalso
        split at h
        · simp at h
        · split at h
          · simp at h
          · simp at h
    · intro hnone
      refine ⟨s, ?_⟩
      unfold updateDonation
      rw [hnone]
  · intro did tid s
    constructor
    · rintro ⟨s1, h⟩
      unfold deleteDonation at h
      split at h
      · rename_i heq
        exact heq
      · exfalso
        simp at h
    · intro hnone
      refine ⟨s, ?_⟩
      unfold deleteDonation
      rw [hnone]

/-- Witness for C5 amended: on a store with no donors, createDonation fails with
donorNotFound, matching the characterization. -/
theorem C5_amended_error_characterization_witness :
    findDonor inputC2.donorId inputC2.tenantId stateEmpty = none ∧
    (∃ s1, createDonation inputC2 stateEmpty = Except.error (DbError.donorNotFound, s1)) :=
  ⟨rfl, (C5_amended_error_characterization.1 inputC2 stateEmpty).mpr rfl⟩

/-- C6: whenever createDonation, updateDonation or deleteDonation fails validation,
the state carried out of the failing operation is exactly the input state — no
donation row was inserted, updated or deleted and no campaign total was mutated. -/
theorem C6_no_mutation_on_validation_failure :
    (∀ i s e s1, createDonation i s = Except.error (e, s1) → s1 = s) ∧
    (∀ p tid s e s1, updateDonation p tid s = Except.error (e, s1) → s1 = s) ∧
    (∀ did tid s e s1, deleteDonation did tid s = Except.error (e, s1) → s1 = s) :=
  ⟨fun _ _ _ _ h => create_err_state h,
   fun _ _ _ _ _ h => update_err_state h,
   fun _ _ _ _ _ h => delete_err_state h⟩

/-- Witness for C6: a concrete missing-donor failure leaves the state unchanged. -/
theorem C6_witness :
    createDonation inputC2 stateEmpty = Except.error (DbError.donorNotFound, stateEmpty) ∧
    stateEmpty = stateEmpty :=
  ⟨rfl, C6_no_mutation_on_validation_failure.1 inputC2 stateEmpty
    DbError.donorNotFound stateEmpty rfl⟩

/-- C7 (refuting the claimed atomicity): the source issues the donation INSERT and
the campaign UPDATE as separate autocommitted statements with no enclosing
transaction, so a storage fault at the campaign update leaves the inserted donation
row committed while the campaign total is unchanged — the operation does not roll
back and the store is left with a Received donation not reflected in its campaign's
currentAmountRaised. -/
theorem C7_fault_leaves_partial_state :
    createDonationWithFault inputC2 baseState 1
      = Except.error (DbError.storageFailure, stateC7mid) ∧
    stateC7mid.donations = baseState.donations ++ [newDonationRow inputC2 1] ∧
    campaignAmount 1 stateC7mid = some 0 ∧
    receivedSum 1 stateC7mid.donations = 100 ∧
    stateC7mid ≠ baseState :=
  ⟨rfl, rfl, rfl, by decide, by decide⟩

/-- C10: deleteCampaign removes only the campaign row; every donation row — the
donors table and the id generator included — is left unmodified, so donations whose
campaignId equals the deleted campaign's id still carry that dangling reference. -/
theorem C10_deleteCampaign_frame (cid : Nat) (tid : String) (s s' : DbState)
    (hrun : deleteCampaign cid tid s = Except.ok s') :
    s'.donations = s.donations ∧
    s'.donors = s.donors ∧
    s'.nextDonationId = s.nextDonationId ∧
    s'.campaigns = s.campaigns.filter (fun c => decide (¬ (c.id = cid ∧ c.tenantId = tid))) ∧
    ∀ d ∈ s.donations, d ∈ s'.donations :=
  by
  obtain ⟨h1, h2, h3, h4⟩ := deleteCampaign_ok_shape hrun
  exact ⟨h2, h1, h3, h4, fun d hd => by rw [h2]; exact hd⟩

/-- Witness for C10: deleting campaign 2 leaves the donation that references it in
place, still pointing at the deleted campaign. -/
theorem C10_deleteCampaign_frame_witness :
    deleteCampaign 2 tenantA stateC10 = Except.ok stateC10after ∧
    stateC10after.donations = stateC10.donations ∧
    pledgeDon ∈ stateC10after.donations ∧
    pledgeDon.campaignId = some 2 :=
  ⟨rfl, (C10_deleteCampaign_frame 2 tenantA stateC10 stateC10after rfl).1,
    (C10_deleteCampaign_frame 2 tenantA stateC10 stateC10after rfl).2.2.2.2
      pledgeDon (by decide), by decide⟩

end Crm
